import Mathlib

/-!
Verification of the session/voting synchronization core of the
nonprofit-trolley-game server against its natural-language specification.

The definitions below are a shallow embedding of the TypeScript services in
`src/server/src`:
  * the data model mirrors the drizzle schema (`db/schema.ts`): sessions,
    participants, votes, session scenarios, rationales, mitigations;
  * `RoomServiceEnhanced` (realtimeServiceSecure.ts) supplies `createRoom`,
    `joinRoom` (roomService.ts variant), `submitVote`, `endSession`,
    `getActiveParticipantCount`;
  * `RoomService.getVoteSummary` (roomService.ts) supplies the tally;
  * `RealtimeServiceSecure` supplies the socket handlers and the
    per-(session, scenario) countdown timers backed by `setInterval`;
  * `resilience.ts` supplies `retryWithBackoff` and the transient-error
    classifier used by `ResilientDatabase.query`.
Database rows are lists; a transaction that throws is a function returning
`Except` (an error means nothing was committed).  Timestamps (`new Date()`)
are explicit `Nat` clock parameters.  The text sanitizer is out of scope for
the spec (a black box), so it is passed in as a function argument.
-/

namespace TrolleyGame

/-- Session lifecycle status (`session_status` enum in db/schema.ts). -/
inductive SessionStatus
  | waiting
  | active
  | complete
  | cancelled
deriving DecidableEq, Repr

/-- Vote choice (`vote_type` enum in db/schema.ts). -/
inductive VoteType
  | pull
  | dont_pull
deriving DecidableEq, Repr

/-- The configuration fields of a session that the core bounds-checks
(`timerDuration`, `maxParticipants` in createRoom defaults). -/
structure SessionConfig where
  timerDuration : Nat
  maxParticipants : Nat
deriving DecidableEq, Repr

/-- A row of the `sessions` table. -/
structure Session where
  id : Nat
  roomCode : String
  status : SessionStatus
  config : SessionConfig
  endedAt : Option Nat
deriving DecidableEq, Repr

/-- A row of the `participants` table. -/
structure Participant where
  id : Nat
  sessionId : Nat
  fingerprint : String
  isActive : Bool
  joinedAt : Nat
  leftAt : Option Nat
deriving DecidableEq, Repr

/-- A row of the `votes` table. -/
structure Vote where
  id : Nat
  sessionId : Nat
  participantId : Nat
  scenarioId : Nat
  vote : VoteType
  latencyMs : Nat
deriving DecidableEq, Repr

/-- A row of the `session_scenarios` junction table; `status` is the
varchar column holding `pending`, `active` or `complete`. -/
structure SessionScenario where
  id : Nat
  sessionId : Nat
  scenarioId : Nat
  status : String
  endedAt : Option Nat
deriving DecidableEq, Repr

/-- A row of the `rationales` table. -/
structure Rationale where
  id : Nat
  voteId : Nat
  originalText : String
  processedText : String
  wordCount : Nat
  moderated : Bool
deriving DecidableEq, Repr

/-- A row of the `mitigations` table. -/
structure Mitigation where
  id : Nat
  voteId : Nat
  originalText : String
  processedText : String
  wordCount : Nat
  moderated : Bool
deriving DecidableEq, Repr

/-- The durable store the services talk to; `nextId` models the id
generator (`uuid defaultRandom`) deterministically. -/
structure DB where
  sessions : List Session
  participants : List Participant
  votes : List Vote
  sessionScenarios : List SessionScenario
  rationales : List Rationale
  mitigations : List Mitigation
  nextId : Nat
deriving DecidableEq, Repr

/-- The empty database. -/
def DB.empty : DB :=
  { sessions := [], participants := [], votes := [], sessionScenarios := [],
    rationales := [], mitigations := [], nextId := 0 }

/-- Word count as computed in submitVote: `text.trim().split(/\s+/).length`
(number of maximal non-whitespace runs of the trimmed text). -/
def countWords (s : String) : Nat :=
  ((s.split (fun c => c.isWhitespace)).filter (fun w => !(w == ""))).length

/-- Insert a rationale row the way `tx.insert(rationales).values(...)` does in
RoomServiceEnhanced.submitVote. -/
def insertRationale (db : DB) (voteId : Nat) (text : String) : DB :=
  { db with
    rationales := db.rationales ++
      [{ id := db.nextId, voteId := voteId, originalText := text.trim,
         processedText := text.trim.toLower, wordCount := countWords text.trim,
         moderated := false }],
    nextId := db.nextId + 1 }

/-- Insert a mitigation row the way `tx.insert(mitigations).values(...)` does
in RoomServiceEnhanced.submitVote. -/
def insertMitigation (db : DB) (voteId : Nat) (text : String) : DB :=
  { db with
    mitigations := db.mitigations ++
      [{ id := db.nextId, voteId := voteId, originalText := text.trim,
         processedText := text.trim.toLower, wordCount := countWords text.trim,
         moderated := false }],
    nextId := db.nextId + 1 }

/-- `RoomServiceEnhanced.submitVote` (realtimeServiceSecure.ts, lines
631 to 716).  The whole body runs in one transaction; throwing rolls back, so
an `Except.error` result carries no updated database.  The vote-value check
(`['pull','dont_pull'].includes(vote)`) is subsumed by the `VoteType` type.
`sanitizeRationale`/`sanitizeMitigation` are the black-box sanitizer of the
spec; `latency` stands for `Date.now() - startTime`. -/
def submitVote (db : DB) (sessionId participantId scenarioId : Nat)
    (vote : VoteType) (rationale mitigation : Option String) (latency : Nat)
    (sanitizeRationale sanitizeMitigation : String → String) :
    Except String (DB × Vote) :=
  let sanitizedRationale := rationale.map sanitizeRationale
  let sanitizedMitigation := mitigation.map sanitizeMitigation
  let existingVote := db.votes.filter (fun v =>
    v.sessionId == sessionId && v.participantId == participantId &&
      v.scenarioId == scenarioId)
  if existingVote.length > 0 then
    .error "Participant has already voted for this scenario"
  else
    let newVote : Vote :=
      { id := db.nextId, sessionId := sessionId, participantId := participantId,
        scenarioId := scenarioId, vote := vote, latencyMs := latency }
    let db1 : DB := { db with votes := db.votes ++ [newVote], nextId := db.nextId + 1 }
    let db2 := match sanitizedRationale with
      | some r => if !(r.trim == "") then insertRationale db1 newVote.id r else db1
      | none => db1
    let db3 := match sanitizedMitigation with
      | some m => if !(m.trim == "") then insertMitigation db2 newVote.id m else db2
      | none => db2
    .ok (db3, newVote)

/-- Does the store already hold a vote for this (session, participant,
scenario) triple? -/
def hasVoteFor (db : DB) (sessionId participantId scenarioId : Nat) : Bool :=
  db.votes.any (fun v =>
    v.sessionId == sessionId && v.participantId == participantId &&
      v.scenarioId == scenarioId)

/-- No two vote rows of the list agree on (session, participant, scenario). -/
def votesUnique (l : List Vote) : Prop :=
  ∀ sessionId participantId scenarioId : Nat,
    (l.filter (fun v =>
      v.sessionId == sessionId && v.participantId == participantId &&
        v.scenarioId == scenarioId)).length ≤ 1

/-- The per-triple uniqueness invariant of the vote ledger: no two stored
vote rows agree on (session, participant, scenario). -/
def voteTriplesUnique (db : DB) : Prop :=
  votesUnique db.votes

/-- Appending a vote whose triple is not yet present preserves per-triple
uniqueness. -/
theorem votesUnique_snoc (l : List Vote) (nv : Vote) (hu : votesUnique l)
    (h0 : (l.filter (fun w =>
      w.sessionId == nv.sessionId && w.participantId == nv.participantId &&
        w.scenarioId == nv.scenarioId)).length = 0) :
    votesUnique (l ++ [nv]) := by
  intro a b c
  rw [List.filter_append, List.length_append]
  by_cases hm : (nv.sessionId == a && nv.participantId == b && nv.scenarioId == c) = true
  · obtain ⟨⟨e1, e2⟩, e3⟩ : (nv.sessionId = a ∧ nv.participantId = b) ∧ nv.scenarioId = c := by
      simpa using hm
    subst e1; subst e2; subst e3
    have h1 : ([nv].filter (fun w =>
        w.sessionId == nv.sessionId && w.participantId == nv.participantId &&
          w.scenarioId == nv.scenarioId)).length = 1 := by
      simp
    omega
  · have h1 : ([nv].filter (fun w =>
        w.sessionId == a && w.participantId == b && w.scenarioId == c)).length = 0 := by
      simp only [List.filter, hm]
      simp
    have h2 := hu a b c
    omega

/-- C1: For every (session, participant, scenario) triple, at most one vote
record exists: a submitVote call for a triple that already has a recorded
vote is rejected with a duplicate-vote error and inserts nothing (the error
aborts the transaction, so no updated store is produced), and a successful
submitVote preserves per-triple uniqueness, never overwriting or
duplicating. -/
theorem submitVote_duplicate_guard
    (db : DB) (sessionId participantId scenarioId : Nat) (vote : VoteType)
    (rationale mitigation : Option String) (latency : Nat)
    (sr sm : String → String) :
    (hasVoteFor db sessionId participantId scenarioId = true →
      submitVote db sessionId participantId scenarioId vote rationale mitigation
        latency sr sm = .error "Participant has already voted for this scenario") ∧
    (∀ db' v,
      submitVote db sessionId participantId scenarioId vote rationale mitigation
        latency sr sm = .ok (db', v) →
      voteTriplesUnique db → voteTriplesUnique db') := by
  constructor
  · intro h
    obtain ⟨w, hw, hpw⟩ := List.any_eq_true.mp h
    have hmem : w ∈ db.votes.filter (fun u =>
        u.sessionId == sessionId && u.participantId == participantId &&
          u.scenarioId == scenarioId) := List.mem_filter.mpr ⟨hw, hpw⟩
    have hpos : 0 < (db.votes.filter (fun u =>
        u.sessionId == sessionId && u.participantId == participantId &&
          u.scenarioId == scenarioId)).length :=
      List.length_pos.mpr (List.ne_nil_of_mem hmem)
    simp only [submitVote]
    rw [if_pos hpos]
  · intro db' v hok hu
    simp only [submitVote] at hok
    by_cases hc : 0 < (db.votes.filter (fun u =>
        u.sessionId == sessionId && u.participantId == participantId &&
          u.scenarioId == scenarioId)).length
    · rw [if_pos hc] at hok
      exact absurd hok (by simp)
    · rw [if_neg hc] at hok
      have hzero : (db.votes.filter (fun u =>
          u.sessionId == sessionId && u.participantId == participantId &&
            u.scenarioId == scenarioId)).length = 0 := Nat.eq_zero_of_not_pos hc
      cases rationale <;> cases mitigation <;>
        simp only [Option.map_none', Option.map_some'] at hok <;>
        rw [Except.ok.injEq, Prod.mk.injEq] at hok <;>
        obtain ⟨hdb, hveq⟩ := hok <;>
        ( have hvts : db'.votes = db.votes ++
              [{ id := db.nextId, sessionId := sessionId,
                 participantId := participantId, scenarioId := scenarioId,
                 vote := vote, latencyMs := latency }] := by
            rw [← hdb]
            repeat' split
            all_goals rfl
          unfold voteTriplesUnique at hu ⊢
          rw [hvts]
          exact votesUnique_snoc _ _ hu hzero )

/-- A store already holding a vote for the triple (1, 1, 1). -/
def dbC1 : DB :=
  { DB.empty with
    votes := [{ id := 0, sessionId := 1, participantId := 1, scenarioId := 1,
                vote := .pull, latencyMs := 5 }],
    nextId := 1 }

/-- Witness for the duplicate-vote rejection at a concrete store. -/
theorem submitVote_duplicate_guard_witness :
    hasVoteFor dbC1 1 1 1 = true ∧
    submitVote dbC1 1 1 1 VoteType.pull none none 0 id id =
      .error "Participant has already voted for this scenario" :=
  ⟨by decide,
   (submitVote_duplicate_guard dbC1 1 1 1 VoteType.pull none none 0 id id).1
     (by decide)⟩

/-- The summary record built by `RoomService.getVoteSummary`
(roomService.ts, lines 228 to 267). -/
structure VoteSummary where
  totalVotes : Nat
  pullVotes : Nat
  dontPullVotes : Nat
  avgLatencyMs : Nat
deriving DecidableEq, Repr

/-- The vote rows of one (session, scenario) pair, as selected by the
`where` clause of getVoteSummary. -/
def votesFor (db : DB) (sessionId scenarioId : Nat) : List Vote :=
  db.votes.filter (fun v => v.sessionId == sessionId && v.scenarioId == scenarioId)

/-- One output row of the SQL aggregation
`SELECT vote, count(*), avg(latency_ms) ... GROUP BY vote`: present exactly
when the group is non-empty. -/
def groupAgg (rows : List Vote) (t : VoteType) : Option (VoteType × Nat × Nat) :=
  let g := rows.filter (fun v => v.vote == t)
  if g.length == 0 then none
  else some (t, g.length, (g.map (fun v => v.latencyMs)).sum / g.length)

/-- The result set of the grouped aggregation query.  SQL leaves the group
order unspecified; the two possible groups are enumerated in a fixed order,
which no field of the summary except the last-write `avgLatencyMs` can
observe. -/
def voteGroups (rows : List Vote) : List (VoteType × Nat × Nat) :=
  [VoteType.pull, VoteType.dont_pull].filterMap (groupAgg rows)

/-- The `voteResults.forEach` accumulation body of getVoteSummary:
`totalVotes += count`, the per-choice field is set to the group count, and
`avgLatencyMs` is overwritten by each group. -/
def applyRow (acc : VoteSummary) (r : VoteType × Nat × Nat) : VoteSummary :=
  { acc with
    totalVotes := acc.totalVotes + r.2.1,
    pullVotes := if r.1 == VoteType.pull then r.2.1 else acc.pullVotes,
    dontPullVotes := if r.1 == VoteType.pull then acc.dontPullVotes else r.2.1,
    avgLatencyMs := r.2.2 }

/-- `RoomService.getVoteSummary` (roomService.ts, lines 228 to 267): one
grouped aggregation query followed by the forEach fold into the summary. -/
def getVoteSummary (db : DB) (sessionId scenarioId : Nat) : VoteSummary :=
  (voteGroups (votesFor db sessionId scenarioId)).foldl applyRow
    { totalVotes := 0, pullVotes := 0, dontPullVotes := 0, avgLatencyMs := 0 }

/-- Every vote row is counted in exactly one of the two choice groups. -/
theorem length_filter_pull_add_dont (rows : List Vote) :
    (rows.filter (fun v => v.vote == VoteType.pull)).length +
      (rows.filter (fun v => v.vote == VoteType.dont_pull)).length = rows.length := by
  induction rows with
  | nil => simp
  | cons v tl ih =>
    cases hv : v.vote <;> simp [List.filter_cons, hv] <;> omega

/-- The restricted room-code alphabet of
`AuthService.generateSecureRoomCode` (authService.ts, lines 66 to 74):
letters and digits without the visually ambiguous 0, O, 1, I. -/
def roomCodeAlphabet : String := "ABCDEFGHJKLMNPQRSTUVWXYZ23456789"

/-- `AuthService.generateSecureRoomCode`: six characters drawn from the
restricted alphabet.  `Math.random()` is modelled by the supplied `rand`
stream, consumed at offsets `off, off+1, ...` and reduced mod the alphabet
size exactly as `Math.floor(Math.random() * chars.length)` indexes it. -/
def generateSecureRoomCode (rand : Nat → Nat) (off : Nat) : String :=
  String.mk ((List.range 6).map (fun i =>
    roomCodeAlphabet.toList.getD ((rand (off + i)) % roomCodeAlphabet.length) 'A'))

/-- The code-generation loop of `RoomServiceEnhanced.createRoom`
(realtimeServiceSecure.ts, lines 489 to 523): generate, check for an
existing session with the same code, insert on success, retry otherwise;
`fuel` counts the remaining attempts out of `maxAttempts = 10`. -/
def createRoomLoop (db : DB) (config : SessionConfig) (rand : Nat → Nat) :
    Nat → Nat → Except String (DB × Session)
  | _, 0 => .error "Failed to generate unique room code"
  | attempt, fuel + 1 =>
    let roomCode := generateSecureRoomCode rand (6 * attempt)
    let existing := db.sessions.filter (fun s => s.roomCode == roomCode)
    if existing.length == 0 then
      let newRoom : Session :=
        { id := db.nextId, roomCode := roomCode, status := .waiting,
          config := config, endedAt := none }
      .ok ({ db with
              sessions := db.sessions ++ [newRoom],
              nextId := db.nextId + 1 }, newRoom)
    else
      createRoomLoop db config rand (attempt + 1) fuel

/-- `RoomServiceEnhanced.createRoom`: bounds-check the config, then run the
ten-attempt generation loop in one transaction. -/
def createRoom (db : DB) (config : SessionConfig) (rand : Nat → Nat) :
    Except String (DB × Session) :=
  if config.timerDuration < 10 || config.timerDuration > 300 then
    .error "Timer duration must be between 10 and 300 seconds"
  else if config.maxParticipants < 1 || config.maxParticipants > 500 then
    .error "Max participants must be between 1 and 500"
  else
    createRoomLoop db config rand 0 10

/-- An in-range default read of a list returns one of its members. -/
theorem getD_mem_of_lt (l : List Char) (n : Nat) (d : Char) (h : n < l.length) :
    l.getD n d ∈ l := by
  rw [List.getD_eq_getElem l d h]
  exact List.getElem_mem h

/-- Every generated room code has six characters, all drawn from the
restricted alphabet. -/
theorem generateSecureRoomCode_chars (rand : Nat → Nat) (off : Nat) :
    (generateSecureRoomCode rand off).length = 6 ∧
    ∀ c ∈ (generateSecureRoomCode rand off).toList, c ∈ roomCodeAlphabet.toList := by
  constructor
  · rfl
  · intro c hc
    have hc' : c ∈ (List.range 6).map (fun i =>
        roomCodeAlphabet.toList.getD ((rand (off + i)) % roomCodeAlphabet.length) 'A') := hc
    obtain ⟨i, _, rfl⟩ := List.mem_map.mp hc'
    apply getD_mem_of_lt
    have hsame : roomCodeAlphabet.length = roomCodeAlphabet.toList.length := rfl
    rw [← hsame]
    exact Nat.mod_lt _ (by decide)

/-- A successful run of the creation loop stores a code produced by the
generator at one of the attempt offsets. -/
theorem createRoomLoop_ok_code (db : DB) (config : SessionConfig) (rand : Nat → Nat) :
    ∀ fuel attempt db' room,
      createRoomLoop db config rand attempt fuel = .ok (db', room) →
      ∃ k, room.roomCode = generateSecureRoomCode rand (6 * k) := by
  intro fuel
  induction fuel with
  | zero => intro attempt db' room h; exact absurd h (by simp [createRoomLoop])
  | succ n ih =>
    intro attempt db' room h
    simp only [createRoomLoop] at h
    split at h
    · rw [Except.ok.injEq, Prod.mk.injEq] at h
      obtain ⟨-, hroom⟩ := h
      exact ⟨attempt, by rw [← hroom]⟩
    · exact ih (attempt + 1) db' room h

/-- If every code generated during the remaining attempts collides, the
creation loop fails with the exhaustion error. -/
theorem createRoomLoop_exhausts (db : DB) (config : SessionConfig) (rand : Nat → Nat) :
    ∀ fuel attempt,
      (∀ k, attempt ≤ k → k < attempt + fuel →
        (db.sessions.filter (fun s =>
          s.roomCode == generateSecureRoomCode rand (6 * k))).length ≠ 0) →
      createRoomLoop db config rand attempt fuel =
        .error "Failed to generate unique room code" := by
  intro fuel
  induction fuel with
  | zero => intro attempt _; rfl
  | succ n ih =>
    intro attempt hcoll
    have hthis := hcoll attempt (Nat.le_refl _) (by omega)
    simp only [createRoomLoop]
    rw [if_neg (by simpa using hthis)]
    exact ih (attempt + 1) (fun k hk1 hk2 => hcoll k (by omega) (by omega))

/-- C3: For every room created by createRoom, the generated 6-character
room code is drawn from a restricted alphabet excluding the visually
ambiguous characters 0, O, 1 and I, and when every generated code collides
with an existing session the generation is retried up to 10 times before
createRoom fails with the code-exhaustion error. -/
theorem createRoom_code_policy (db : DB) (config : SessionConfig) (rand : Nat → Nat)
    (h1 : 10 ≤ config.timerDuration ∧ config.timerDuration ≤ 300)
    (h2 : 1 ≤ config.maxParticipants ∧ config.maxParticipants ≤ 500) :
    (∀ db' room, createRoom db config rand = .ok (db', room) →
      room.roomCode.length = 6 ∧
      room.roomCode.toList.all (fun c => roomCodeAlphabet.toList.contains c) = true ∧
      room.roomCode.toList.all (fun c =>
        !(c == '0') && !(c == 'O') && !(c == '1') && !(c == 'I')) = true) ∧
    ((∀ k, k < 10 → (db.sessions.filter (fun s =>
        s.roomCode == generateSecureRoomCode rand (6 * k))).length ≠ 0) →
      createRoom db config rand = .error "Failed to generate unique room code") := by
  obtain ⟨h1a, h1b⟩ := h1
  obtain ⟨h2a, h2b⟩ := h2
  have c1 : (config.timerDuration < 10 || config.timerDuration > 300) = false := by
    simp only [Bool.or_eq_false_iff, decide_eq_false_iff_not]
    exact ⟨by omega, by omega⟩
  have c2 : (config.maxParticipants < 1 || config.maxParticipants > 500) = false := by
    simp only [Bool.or_eq_false_iff, decide_eq_false_iff_not]
    exact ⟨by omega, by omega⟩
  constructor
  · intro db' room hok
    simp only [createRoom, c1, c2] at hok
    obtain ⟨k, hcode⟩ := createRoomLoop_ok_code db config rand 10 0 db' room (by simpa using hok)
    rw [hcode]
    obtain ⟨hlen, hmem⟩ := generateSecureRoomCode_chars rand (6 * k)
    have hamb : roomCodeAlphabet.toList.all (fun c =>
        !(c == '0') && !(c == 'O') && !(c == '1') && !(c == 'I')) = true := by decide
    refine ⟨hlen, ?_, ?_⟩
    · exact List.all_eq_true.mpr (fun c hc => List.elem_iff.mpr (hmem c hc))
    · exact List.all_eq_true.mpr (fun c hc =>
        List.all_eq_true.mp hamb c (hmem c hc))
  · intro hcoll
    simp only [createRoom, c1, c2]
    simp only [Bool.false_eq_true, if_false]
    exact createRoomLoop_exhausts db config rand 10 0
      (fun k hk1 hk2 => hcoll k (by omega))

/-- A deterministic randomness stream for witnesses. -/
def randZero : Nat → Nat := fun _ => 0

/-- The room produced by createRoom on the empty store under `randZero`. -/
def roomW : Session :=
  { id := 0, roomCode := "AAAAAA", status := .waiting,
    config := { timerDuration := 30, maxParticipants := 200 }, endedAt := none }

/-- The store after that creation. -/
def dbAfterCreateW : DB := { DB.empty with sessions := [roomW], nextId := 1 }

/-- Witness: the code policy at a concrete creation. -/
theorem createRoom_code_policy_witness :
    roomW.roomCode.length = 6 ∧
    roomW.roomCode.toList.all (fun c => roomCodeAlphabet.toList.contains c) = true ∧
    roomW.roomCode.toList.all (fun c =>
      !(c == '0') && !(c == 'O') && !(c == '1') && !(c == 'I')) = true :=
  (createRoom_code_policy DB.empty { timerDuration := 30, maxParticipants := 200 }
      randZero ⟨by decide, by decide⟩ ⟨by decide, by decide⟩).1
    dbAfterCreateW roomW (by rfl)

/-- The `where` clause of joinRoom on the sessions table: matching room
code and status `waiting` or `active`. -/
def sessionJoinable (s : Session) (roomCode : String) : Bool :=
  s.roomCode == roomCode &&
    (s.status == SessionStatus.waiting || s.status == SessionStatus.active)

/-- `count(*)` over active participants of one session. -/
def activeCount (db : DB) (sessionId : Nat) : Nat :=
  (db.participants.filter (fun p => p.sessionId == sessionId && p.isActive)).length

/-- `RoomService.joinRoom` (roomService.ts, lines 37 to 111): resolve the
session, enforce capacity, then reactivate an existing
(session, fingerprint) participant or insert a new one. -/
def joinRoom (db : DB) (roomCode fingerprint : String) (now : Nat) :
    Except String (DB × Participant) :=
  match db.sessions.find? (fun s => sessionJoinable s roomCode) with
  | none => .error "Room not found or inactive"
  | some session =>
    if activeCount db session.id ≥ session.config.maxParticipants then
      .error "Room is full"
    else
      match db.participants.find? (fun p =>
          p.sessionId == session.id && p.fingerprint == fingerprint) with
      | some existing =>
        let updated := { existing with isActive := true, joinedAt := now }
        .ok ({ db with
                participants := db.participants.map
                  (fun p => if p.id == existing.id then updated else p) }, updated)
      | none =>
        let newP : Participant :=
          { id := db.nextId, sessionId := session.id, fingerprint := fingerprint,
            isActive := true, joinedAt := now, leftAt := none }
        .ok ({ db with
                participants := db.participants ++ [newP],
                nextId := db.nextId + 1 }, newP)

/-- The store after a joinRoom call: a thrown error leaves it unchanged. -/
def joinStateAfter (db : DB) (roomCode fingerprint : String) (now : Nat) : DB :=
  match joinRoom db roomCode fingerprint now with
  | .ok (db', _) => db'
  | .error _ => db

/-- Is the fingerprint already known to the session this room code resolves
to (vacuously so when no session matches)? -/
def rejoinKnown (db : DB) (roomCode fingerprint : String) : Bool :=
  match db.sessions.find? (fun s => sessionJoinable s roomCode) with
  | some s => db.participants.any (fun p =>
      p.sessionId == s.id && p.fingerprint == fingerprint)
  | none => true

/-- C7: For every session and fingerprint, joining a room with a
fingerprint already known to that session reactivates the existing
participant record rather than creating a new one, so a rejoin never
increases the distinct-participant count. -/
theorem joinRoom_rejoin_idempotent (db : DB) (roomCode fingerprint : String)
    (now : Nat) (h : rejoinKnown db roomCode fingerprint = true) :
    (joinStateAfter db roomCode fingerprint now).participants.length =
      db.participants.length ∧
    (∀ db' p, joinRoom db roomCode fingerprint now = .ok (db', p) →
      p.isActive = true ∧ db.participants.any (fun q => q.id == p.id) = true) := by
  unfold joinStateAfter
  cases hfind : db.sessions.find? (fun s => sessionJoinable s roomCode) with
  | none =>
    constructor
    · simp [joinRoom, hfind]
    · intro db' p hok
      simp only [joinRoom, hfind] at hok
      exact absurd hok (by simp)
  | some s =>
    have hany : db.participants.any (fun p =>
        p.sessionId == s.id && p.fingerprint == fingerprint) = true := by
      unfold rejoinKnown at h
      rw [hfind] at h
      exact h
    obtain ⟨q, hqmem, hqp⟩ := List.any_eq_true.mp hany
    cases hpfind : db.participants.find? (fun p =>
        p.sessionId == s.id && p.fingerprint == fingerprint) with
    | none =>
      exfalso
      have hnone := List.find?_eq_none.mp hpfind q hqmem
      exact absurd hqp (by simpa using hnone)
    | some existing =>
      by_cases hful : activeCount db s.id ≥ s.config.maxParticipants
      · constructor
        · simp [joinRoom, hfind, hful]
        · intro db' p hok
          simp only [joinRoom, hfind] at hok
          rw [if_pos hful] at hok
          exact absurd hok (by simp)
      · constructor
        · simp [joinRoom, hfind, hful, hpfind]
        · intro db' p hok
          simp only [joinRoom, hfind] at hok
          rw [if_neg hful, hpfind] at hok
          rw [Except.ok.injEq, Prod.mk.injEq] at hok
          obtain ⟨hdb, hp⟩ := hok
          constructor
          · rw [← hp]
          · have hmem := List.mem_of_find?_eq_some hpfind
            refine List.any_eq_true.mpr ⟨existing, hmem, ?_⟩
            rw [← hp]
            simp

/-- A store holding an inactive participant with fingerprint fp1 in the
joinable session with room code ABC234. -/
def dbJ : DB :=
  { DB.empty with
    sessions := [{ id := 1, roomCode := "ABC234", status := .active,
                   config := { timerDuration := 30, maxParticipants := 2 },
                   endedAt := none }],
    participants := [{ id := 5, sessionId := 1, fingerprint := "fp1",
                       isActive := false, joinedAt := 0, leftAt := none }],
    nextId := 6 }

/-- The reactivated participant record returned by the witness rejoin. -/
def rejoinedW : Participant :=
  { id := 5, sessionId := 1, fingerprint := "fp1", isActive := true,
    joinedAt := 7, leftAt := none }

/-- Witness: a concrete rejoin leaves the participant-row count unchanged
and reactivates the stored record. -/
theorem joinRoom_rejoin_idempotent_witness :
    (joinStateAfter dbJ "ABC234" "fp1" 7).participants.length =
      dbJ.participants.length ∧
    (rejoinedW.isActive = true ∧
      dbJ.participants.any (fun q => q.id == rejoinedW.id) = true) :=
  ⟨(joinRoom_rejoin_idempotent dbJ "ABC234" "fp1" 7 (by decide)).1,
   (joinRoom_rejoin_idempotent dbJ "ABC234" "fp1" 7 (by decide)).2
     { dbJ with participants := [rejoinedW] } rejoinedW (by rfl)⟩

/-- `RoomServiceEnhanced.endSession` (realtimeServiceSecure.ts, lines 786
to 826): one transaction setting the session `complete` with `endedAt`,
deactivating all its participants with `leftAt`, and completing all its
scenario-in-session records with `endedAt`; `now` stands for the
`new Date()` taken inside the call. -/
def endSession (db : DB) (sessionId : Nat) (now : Nat) : DB :=
  { db with
    sessions := db.sessions.map (fun s =>
      if s.id == sessionId then { s with status := .complete, endedAt := some now }
      else s),
    participants := db.participants.map (fun p =>
      if p.sessionId == sessionId then { p with isActive := false, leftAt := some now }
      else p),
    sessionScenarios := db.sessionScenarios.map (fun sc =>
      if sc.sessionId == sessionId then { sc with status := "complete", endedAt := some now }
      else sc) }

/-- Projection forgetting the mutable timestamp columns endSession writes
(`sessions.ended_at`, `participants.left_at`, `session_scenarios.ended_at`). -/
def eraseTimestamps (db : DB) : DB :=
  { db with
    sessions := db.sessions.map (fun s => { s with endedAt := none }),
    participants := db.participants.map (fun p => { p with leftAt := none }),
    sessionScenarios := db.sessionScenarios.map (fun sc => { sc with endedAt := none }) }

/-- A store with one active session, one active participant and one active
scenario-in-session record. -/
def dbC5 : DB :=
  { DB.empty with
    sessions := [{ id := 1, roomCode := "QQQ222", status := .active,
                   config := { timerDuration := 30, maxParticipants := 10 },
                   endedAt := none }],
    participants := [{ id := 2, sessionId := 1, fingerprint := "fpA",
                       isActive := true, joinedAt := 0, leftAt := none }],
    sessionScenarios := [{ id := 3, sessionId := 1, scenarioId := 9,
                           status := "active", endedAt := none }],
    nextId := 4 }

/-- C5 counterexample: a second endSession call at a later clock is not a
no-op — it rewrites the endedAt/leftAt timestamp columns, so the stored
rows change again. -/
theorem endSession_twice_changes_rows :
    endSession (endSession dbC5 1 1) 1 2 ≠ endSession dbC5 1 1 := by decide

/-- C5 amended: endSession sets the session status to complete, marks all
of that session's participants inactive and all of its scenario-in-session
records complete; a second call is a no-op on every status and activity
field — it only refreshes the endedAt/leftAt timestamps — and a second call
under an unchanged clock is a strict no-op. -/
theorem endSession_amended (db : DB) (sessionId t1 t2 : Nat) :
    (∀ s ∈ (endSession db sessionId t1).sessions, s.id = sessionId →
      s.status = SessionStatus.complete) ∧
    (∀ p ∈ (endSession db sessionId t1).participants, p.sessionId = sessionId →
      p.isActive = false) ∧
    (∀ sc ∈ (endSession db sessionId t1).sessionScenarios, sc.sessionId = sessionId →
      sc.status = "complete") ∧
    eraseTimestamps (endSession (endSession db sessionId t1) sessionId t2) =
      eraseTimestamps (endSession db sessionId t1) ∧
    endSession (endSession db sessionId t1) sessionId t1 =
      endSession db sessionId t1 := by
  refine ⟨?_, ?_, ?_, ?_, ?_⟩
  · intro s hs hid
    simp only [endSession, List.mem_map] at hs
    obtain ⟨a, ha, hfa⟩ := hs
    by_cases hcase : (a.id == sessionId) = true
    · rw [← hfa]
      simp [hcase]
    · rw [← hfa] at hid
      simp [hcase] at hid
      exact absurd hid (by simpa using hcase)
  · intro p hp hid
    simp only [endSession, List.mem_map] at hp
    obtain ⟨a, ha, hfa⟩ := hp
    by_cases hcase : (a.sessionId == sessionId) = true
    · rw [← hfa]
      simp [hcase]
    · rw [← hfa] at hid
      simp [hcase] at hid
      exact absurd hid (by simpa using hcase)
  · intro sc hsc hid
    simp only [endSession, List.mem_map] at hsc
    obtain ⟨a, ha, hfa⟩ := hsc
    by_cases hcase : (a.sessionId == sessionId) = true
    · rw [← hfa]
      simp [hcase]
    · rw [← hfa] at hid
      simp [hcase] at hid
      exact absurd hid (by simpa using hcase)
  · simp only [endSession, eraseTimestamps, List.map_map]
    congr 1
    · apply List.map_congr_left
      intro a _
      by_cases hcase : (a.id == sessionId) = true <;> simp [Function.comp, hcase]
    · apply List.map_congr_left
      intro a _
      by_cases hcase : (a.sessionId == sessionId) = true <;> simp [Function.comp, hcase]
    · apply List.map_congr_left
      intro a _
      by_cases hcase : (a.sessionId == sessionId) = true <;> simp [Function.comp, hcase]
  · simp only [endSession, List.map_map]
    congr 1
    · apply List.map_congr_left
      intro a _
      by_cases hcase : (a.id == sessionId) = true <;> simp [Function.comp, hcase]
    · apply List.map_congr_left
      intro a _
      by_cases hcase : (a.sessionId == sessionId) = true <;> simp [Function.comp, hcase]
    · apply List.map_congr_left
      intro a _
      by_cases hcase : (a.sessionId == sessionId) = true <;> simp [Function.comp, hcase]

/-- C6: For every (session, scenario) pair and every set of stored votes,
the tally returned by getVoteSummary satisfies
total = pull_count + dont_pull_count, and total equals the number of vote
rows stored for that pair. -/
theorem getVoteSummary_tally (db : DB) (sessionId scenarioId : Nat) :
    (getVoteSummary db sessionId scenarioId).totalVotes =
      (getVoteSummary db sessionId scenarioId).pullVotes +
        (getVoteSummary db sessionId scenarioId).dontPullVotes ∧
    (getVoteSummary db sessionId scenarioId).totalVotes =
      (votesFor db sessionId scenarioId).length := by
  have hlen := length_filter_pull_add_dont (votesFor db sessionId scenarioId)
  have hfields :
      (getVoteSummary db sessionId scenarioId).pullVotes =
        ((votesFor db sessionId scenarioId).filter
          (fun v => v.vote == VoteType.pull)).length ∧
      (getVoteSummary db sessionId scenarioId).dontPullVotes =
        ((votesFor db sessionId scenarioId).filter
          (fun v => v.vote == VoteType.dont_pull)).length ∧
      (getVoteSummary db sessionId scenarioId).totalVotes =
        ((votesFor db sessionId scenarioId).filter
          (fun v => v.vote == VoteType.pull)).length +
        ((votesFor db sessionId scenarioId).filter
          (fun v => v.vote == VoteType.dont_pull)).length := by
    by_cases hp : ((votesFor db sessionId scenarioId).filter
        (fun v => v.vote == VoteType.pull)).length = 0 <;>
      by_cases hd : ((votesFor db sessionId scenarioId).filter
          (fun v => v.vote == VoteType.dont_pull)).length = 0 <;>
        simp [getVoteSummary, voteGroups, groupAgg, applyRow, hp, hd]
  obtain ⟨h1, h2, h3⟩ := hfields
  omega

/-- The outbound realtime events of the RealtimeEvents catalog that the
modelled handlers emit. -/
inductive RoomEvent
  | participantJoined (participantId roomCode : String) (activeCount : Nat)
  | participantLeft (participantId roomCode : String) (activeCount : Nat)
  | timerStarted (sessionId scenarioId : String) (duration startTime : Nat)
  | timerTick (sessionId scenarioId : String) (secondsRemaining : Int)
  | scenarioStarted (sessionId scenarioId title : String)
  | sessionEnded (sessionId roomCode : String)
  | decisionAnnounced (sessionId scenarioId decision : String)
      (pullCount dontPullCount totalVotes : Int)
deriving DecidableEq, Repr

/-- One fan-out to a socket.io room; `volatileFlag` records a
`.volatile.emit` (best-effort delivery) versus a plain `emit`. -/
structure Broadcast where
  room : String
  volatileFlag : Bool
  event : RoomEvent
deriving DecidableEq, Repr

/-- The room channel name used by every handler. -/
def roomOf (sessionId : String) : String := "room:" ++ sessionId

/-- A live `setInterval` countdown callback together with its captured
`secondsRemaining` state. -/
structure Interval where
  id : Nat
  key : String
  sessionId : String
  scenarioId : String
  secondsRemaining : Int
deriving DecidableEq, Repr

/-- The mutable realtime-service state: the `sessionTimers` map from timer
key to interval handle, the set of live interval callbacks, and a fresh
handle counter. -/
structure TimerSys where
  sessionTimers : List (String × Nat)
  intervals : List Interval
  nextIntervalId : Nat
deriving DecidableEq, Repr

/-- The initial realtime-service state. -/
def TimerSys.empty : TimerSys :=
  { sessionTimers := [], intervals := [], nextIntervalId := 0 }

/-- JS `Map.get` on the association list. -/
def mapGet (m : List (String × Nat)) (k : String) : Option Nat :=
  (m.find? (fun kv => kv.1 == k)).map (fun kv => kv.2)

/-- JS `Map.set`: replace any existing binding of the key. -/
def mapSet (m : List (String × Nat)) (k : String) (v : Nat) : List (String × Nat) :=
  (m.filter (fun kv => !(kv.1 == k))) ++ [(k, v)]

/-- JS `Map.delete`. -/
def mapDelete (m : List (String × Nat)) (k : String) : List (String × Nat) :=
  m.filter (fun kv => !(kv.1 == k))

/-- The timer key of `startTimer`: `sessionId-scenarioId`. -/
def timerKey (sessionId scenarioId : String) : String :=
  sessionId ++ "-" ++ scenarioId

/-- `clearInterval(handle)`: the callback never fires again. -/
def clearIntervalTimer (st : TimerSys) (tid : Nat) : TimerSys :=
  { st with intervals := st.intervals.filter (fun iv => !(iv.id == tid)) }

/-- `RealtimeServiceSecure.startTimer` (realtimeServiceSecure.ts, lines 354
to 392): clear any existing interval for the key, emit `timer_started`, and
register a fresh 1-second interval holding `secondsRemaining = duration`. -/
def startTimer (st : TimerSys) (sessionId scenarioId : String)
    (duration now : Nat) : TimerSys × List Broadcast :=
  let key := timerKey sessionId scenarioId
  let st1 := match mapGet st.sessionTimers key with
    | some t => clearIntervalTimer st t
    | none => st
  let tid := st1.nextIntervalId
  let iv : Interval :=
    { id := tid, key := key, sessionId := sessionId, scenarioId := scenarioId,
      secondsRemaining := (duration : Int) }
  let st2 : TimerSys :=
    { st1 with
      intervals := st1.intervals ++ [iv],
      nextIntervalId := st1.nextIntervalId + 1,
      sessionTimers := mapSet st1.sessionTimers key tid }
  (st2, [{ room := roomOf sessionId, volatileFlag := false,
           event := .timerStarted sessionId scenarioId duration now }])

/-- One firing of the countdown callback registered by startTimer:
decrement, emit the volatile `timer_tick`, and on reaching zero clear the
interval and delete the key from `sessionTimers`.  A handle whose interval
was already cleared fires nothing. -/
def intervalTick (st : TimerSys) (tid : Nat) : TimerSys × List Broadcast :=
  match st.intervals.find? (fun iv => iv.id == tid) with
  | none => (st, [])
  | some iv =>
    let s := iv.secondsRemaining - 1
    let msg : Broadcast :=
      { room := roomOf iv.sessionId, volatileFlag := true,
        event := .timerTick iv.sessionId iv.scenarioId s }
    if s ≤ 0 then
      let st1 := clearIntervalTimer st tid
      ({ st1 with sessionTimers := mapDelete st1.sessionTimers iv.key }, [msg])
    else
      ({ st with intervals := st.intervals.map (fun j =>
           if j.id == tid then { j with secondsRemaining := s } else j) }, [msg])

/-- The end_session cleanup loop: for every `sessionTimers` entry whose key
starts with the session id, clear its interval and delete the entry. -/
def clearSessionTimers (st : TimerSys) (sessionId : String) : TimerSys :=
  let doomed := st.sessionTimers.filter (fun kv => kv.1.startsWith sessionId)
  { st with
    sessionTimers := st.sessionTimers.filter (fun kv => !(kv.1.startsWith sessionId)),
    intervals := st.intervals.filter (fun iv =>
      !(doomed.any (fun kv => kv.2 == iv.id))) }

/-- The authenticated identity the socket middleware stored in
`socket.data`. -/
structure SocketData where
  sessionId : String
  participantId : String
  roomCode : String
deriving DecidableEq, Repr

/-- What a handler sends: an error back to the sender, or a room fan-out. -/
inductive OutMsg
  | errorToSender (message : String)
  | toRoom (b : Broadcast)
deriving DecidableEq, Repr

/-- The `start_timer` handler of `RealtimeServiceSecure.setupHandlers`
(realtimeServiceSecure.ts, lines 196 to 217). -/
def handleStartTimer (sock : SocketData) (dataSessionId dataScenarioId : String)
    (duration : Nat) (st : TimerSys) (now : Nat) : TimerSys × List OutMsg :=
  if dataSessionId != sock.sessionId then
    (st, [.errorToSender "Unauthorized action"])
  else if duration < 10 || duration > 300 then
    (st, [.errorToSender "Invalid timer duration"])
  else
    let r := startTimer st dataSessionId dataScenarioId duration now
    (r.1, r.2.map .toRoom)

/-- The `start_scenario` handler (realtimeServiceSecure.ts, lines 219 to
239); the title passes through the black-box sanitizer. -/
def handleStartScenario (sock : SocketData)
    (dataSessionId dataScenarioId title : String) (sanitize : String → String)
    (st : TimerSys) : TimerSys × List OutMsg :=
  if dataSessionId != sock.sessionId then
    (st, [.errorToSender "Unauthorized action"])
  else
    (st, [.toRoom { room := roomOf dataSessionId, volatileFlag := false,
                    event := .scenarioStarted dataSessionId dataScenarioId
                      (sanitize title) }])

/-- The `announce_decision` handler (realtimeServiceSecure.ts, lines 241 to
276). -/
def handleAnnounceDecision (sock : SocketData)
    (dataSessionId dataScenarioId decision : String)
    (pullCount dontPullCount totalVotes : Int) (st : TimerSys) :
    TimerSys × List OutMsg :=
  if dataSessionId != sock.sessionId then
    (st, [.errorToSender "Unauthorized action"])
  else if !(["ai_track", "non_ai_track", "tie"].contains decision) then
    (st, [.errorToSender "Invalid decision value"])
  else
    (st, [.toRoom { room := roomOf dataSessionId, volatileFlag := false,
                    event := .decisionAnnounced dataSessionId dataScenarioId
                      decision (max 0 pullCount) (max 0 dontPullCount)
                      (max 0 totalVotes) }])

/-- The `end_session` handler (realtimeServiceSecure.ts, lines 278 to 300);
the room code passes through the black-box sanitizer. -/
def handleEndSession (sock : SocketData) (dataSessionId dataRoomCode : String)
    (sanitizeCode : String → String) (st : TimerSys) : TimerSys × List OutMsg :=
  if dataSessionId != sock.sessionId then
    (st, [.errorToSender "Unauthorized action"])
  else
    let st1 := clearSessionTimers st dataSessionId
    (st1, [.toRoom { room := roomOf dataSessionId, volatileFlag := false,
                     event := .sessionEnded dataSessionId
                       (sanitizeCode dataRoomCode) }])

/-- C4: For every inbound state-mutating socket message (start_timer,
start_scenario, announce_decision, end_session), if the sessionId carried
in the message differs from the session the sending client authenticated
into, the handler returns the unauthorized-action error and performs no
broadcast, timer change, or other effect. -/
theorem handlers_reject_unauthorized (sock : SocketData)
    (dataSessionId dataScenarioId title decision dataRoomCode : String)
    (duration now : Nat) (pullCount dontPullCount totalVotes : Int)
    (san sanCode : String → String) (st : TimerSys)
    (h : (dataSessionId == sock.sessionId) = false) :
    handleStartTimer sock dataSessionId dataScenarioId duration st now =
      (st, [.errorToSender "Unauthorized action"]) ∧
    handleStartScenario sock dataSessionId dataScenarioId title san st =
      (st, [.errorToSender "Unauthorized action"]) ∧
    handleAnnounceDecision sock dataSessionId dataScenarioId decision
        pullCount dontPullCount totalVotes st =
      (st, [.errorToSender "Unauthorized action"]) ∧
    handleEndSession sock dataSessionId dataRoomCode sanCode st =
      (st, [.errorToSender "Unauthorized action"]) := by
  have hne : (dataSessionId != sock.sessionId) = true := by
    simp [bne, h]
  refine ⟨?_, ?_, ?_, ?_⟩ <;>
    simp [handleStartTimer, handleStartScenario, handleAnnounceDecision,
      handleEndSession, hne]

/-- The authenticated socket identity used by the C4 witness. -/
def sockW : SocketData :=
  { sessionId := "s1", participantId := "p1", roomCode := "R1" }

/-- Witness: a concrete cross-session message is rejected by all four
handlers with the state untouched. -/
theorem handlers_reject_unauthorized_witness :
    handleStartTimer sockW "s2" "sc1" 30 TimerSys.empty 0 =
      (TimerSys.empty, [.errorToSender "Unauthorized action"]) ∧
    handleStartScenario sockW "s2" "sc1" "title" id TimerSys.empty =
      (TimerSys.empty, [.errorToSender "Unauthorized action"]) ∧
    handleAnnounceDecision sockW "s2" "sc1" "tie" 1 1 2 TimerSys.empty =
      (TimerSys.empty, [.errorToSender "Unauthorized action"]) ∧
    handleEndSession sockW "s2" "R1" id TimerSys.empty =
      (TimerSys.empty, [.errorToSender "Unauthorized action"]) :=
  handlers_reject_unauthorized sockW "s2" "sc1" "title" "tie" "R1" 30 0 1 1 2
    id id TimerSys.empty (by decide)

/-- find? is unaffected by a filter that keeps everything the predicate
accepts. -/
theorem find?_filter_of_imp (p q : (String × Nat) → Bool)
    (l : List (String × Nat)) (himp : ∀ a, p a = true → q a = true) :
    List.find? p (l.filter q) = List.find? p l := by
  induction l with
  | nil => rfl
  | cons a tl ih =>
    by_cases hq : q a = true
    · rw [List.filter_cons_of_pos hq]
      by_cases hp : p a = true
      · rw [List.find?_cons_of_pos _ hp, List.find?_cons_of_pos _ hp]
      · rw [List.find?_cons_of_neg _ hp, List.find?_cons_of_neg _ hp, ih]
    · rw [List.filter_cons_of_neg hq, ih,
        List.find?_cons_of_neg _ (fun hp => hq (himp a hp))]

/-- Looking up the excluded key in a key-excluding filter fails. -/
theorem find?_excluded_none (m : List (String × Nat)) (k : String) :
    List.find? (fun kv => kv.1 == k) (m.filter (fun kv => !(kv.1 == k))) = none := by
  rw [List.find?_eq_none]
  intro kv hkv
  have hkeep := List.of_mem_filter hkv
  simpa using hkeep

/-- Map.set then Map.get of the same key. -/
theorem mapGet_mapSet_self (m : List (String × Nat)) (k : String) (v : Nat) :
    mapGet (mapSet m k v) k = some v := by
  unfold mapGet mapSet
  rw [List.find?_append, find?_excluded_none]
  simp

/-- Map.set leaves other keys untouched. -/
theorem mapGet_mapSet_ne (m : List (String × Nat)) (k : String) (v : Nat)
    (k' : String) (h : k' ≠ k) :
    mapGet (mapSet m k v) k' = mapGet m k' := by
  unfold mapGet mapSet
  rw [List.find?_append]
  have h2 : List.find? (fun kv => kv.1 == k') [(k, v)] = none := by
    rw [List.find?_eq_none]
    intro kv hkv
    simp at hkv
    subst hkv
    simpa using (Ne.symm h)
  rw [h2]
  rw [find?_filter_of_imp _ _ _ ?_]
  · cases List.find? (fun kv => kv.1 == k') m <;> rfl
  · intro a ha
    have ha' : a.1 = k' := by simpa using ha
    simp [ha', h]

/-- Map.delete removes the key. -/
theorem mapGet_mapDelete_self (m : List (String × Nat)) (k : String) :
    mapGet (mapDelete m k) k = none := by
  unfold mapGet mapDelete
  rw [find?_excluded_none]
  rfl

/-- A member of Map.set m k v is an old entry with a different key or the
new pair. -/
theorem mem_of_mem_mapSet {m : List (String × Nat)} {k : String} {v : Nat}
    {kv : String × Nat} (h : kv ∈ mapSet m k v) : kv ∈ m ∨ kv = (k, v) := by
  unfold mapSet at h
  rcases List.mem_append.mp h with h1 | h1
  · exact Or.inl (List.mem_of_mem_filter h1)
  · simp at h1
    exact Or.inr h1

/-- A successful Map.get exhibits the stored pair. -/
theorem mapGet_mem {m : List (String × Nat)} {k : String} {v : Nat}
    (h : mapGet m k = some v) : (k, v) ∈ m := by
  unfold mapGet at h
  cases hf : m.find? (fun kv => kv.1 == k) with
  | none => rw [hf] at h; simp at h
  | some kv =>
    rw [hf] at h
    simp at h
    have hmem := List.mem_of_find?_eq_some hf
    have hkey : kv.1 = k := by simpa using List.find?_some hf
    have hkv : kv = (k, v) := by
      cases kv
      simp_all
    rw [← hkv]
    exact hmem

/-- Map.set preserves distinctness of the stored keys. -/
theorem mapSet_keys_nodup (m : List (String × Nat)) (k : String) (v : Nat)
    (h : (m.map Prod.fst).Nodup) : ((mapSet m k v).map Prod.fst).Nodup := by
  unfold mapSet
  rw [List.map_append]
  refine List.Nodup.append ?_ (by simp) ?_
  · exact List.Nodup.sublist (List.Sublist.map _ (List.filter_sublist _)) h
  · intro a ha hb
    simp at hb
    subst hb
    obtain ⟨kv, hkv, rfl⟩ := List.mem_map.mp ha
    have hkeep := List.of_mem_filter hkv
    simp at hkeep

/-- A duplicate-free list whose members are all one value has at most one
member. -/
theorem length_le_one_of_nodup_const {α : Type} (l : List α) (c : α)
    (hn : l.Nodup) (hc : ∀ x ∈ l, x = c) : l.length ≤ 1 := by
  match l with
  | [] => simp
  | [a] => simp
  | a :: b :: t =>
    exfalso
    have ha := hc a (by simp)
    have hb := hc b (by simp)
    have : a ≠ b := by
      have := List.Nodup.not_mem hn
      intro hab
      exact this (hab ▸ List.mem_cons_self b t)
    exact this (ha.trans hb.symm)

/-- Well-formedness of the realtime-service state: the sessionTimers map
has distinct keys, all stored and live handles are below the counter, live
interval handles are distinct, and every live interval is exactly the one
its key is bound to. -/
def TimerSys.WF (st : TimerSys) : Prop :=
  (st.sessionTimers.map Prod.fst).Nodup ∧
  (∀ kv ∈ st.sessionTimers, kv.2 < st.nextIntervalId) ∧
  (∀ iv ∈ st.intervals, iv.id < st.nextIntervalId) ∧
  (st.intervals.map Interval.id).Nodup ∧
  (∀ iv ∈ st.intervals, mapGet st.sessionTimers iv.key = some iv.id)

/-- A well-formed state has at most one live countdown per timer key. -/
theorem wf_at_most_one_per_key (st : TimerSys) (hwf : st.WF) (k : String) :
    (st.intervals.filter (fun iv => iv.key == k)).length ≤ 1 := by
  obtain ⟨-, -, -, hnodup, hbind⟩ := hwf
  cases hget : mapGet st.sessionTimers k with
  | none =>
    have hnil : st.intervals.filter (fun iv => iv.key == k) = [] := by
      rw [List.filter_eq_nil_iff]
      intro iv hiv hkeyb
      have hkey : iv.key = k := by simpa using hkeyb
      have hb := hbind iv hiv
      rw [hkey, hget] at hb
      exact Option.noConfusion hb
    rw [hnil]
    simp
  | some t =>
    have hsub : ((st.intervals.filter (fun iv => iv.key == k)).map Interval.id).Nodup :=
      List.Nodup.sublist (List.Sublist.map _ (List.filter_sublist _)) hnodup
    have hconst : ∀ x ∈ (st.intervals.filter (fun iv => iv.key == k)).map Interval.id,
        x = t := by
      intro x hx
      obtain ⟨iv, hiv, rfl⟩ := List.mem_map.mp hx
      have hmem := List.mem_of_mem_filter hiv
      have hkey : iv.key = k := by simpa using List.of_mem_filter hiv
      have hb := hbind iv hmem
      rw [hkey, hget] at hb
      exact (Option.some.injEq _ _ ▸ hb).symm
    have := length_le_one_of_nodup_const _ t hsub hconst
    simpa using this

/-- Registering a fresh interval under a key that no surviving interval
holds yields a well-formed state again. -/
theorem startTimer_core_wf (m : List (String × Nat)) (base : List Interval)
    (nid : Nat) (sessionId scenarioId : String) (duration : Nat)
    (hk : (m.map Prod.fst).Nodup)
    (hbound : ∀ kv ∈ m, kv.2 < nid)
    (hibound : ∀ iv ∈ base, iv.id < nid)
    (hidnodup : (base.map Interval.id).Nodup)
    (hbind : ∀ iv ∈ base, mapGet m iv.key = some iv.id)
    (hnokey : ∀ iv ∈ base, iv.key ≠ timerKey sessionId scenarioId) :
    TimerSys.WF
      { sessionTimers := mapSet m (timerKey sessionId scenarioId) nid,
        intervals := base ++ [{ id := nid, key := timerKey sessionId scenarioId,
                                sessionId := sessionId, scenarioId := scenarioId,
                                secondsRemaining := (duration : Int) }],
        nextIntervalId := nid + 1 } := by
  refine ⟨?_, ?_, ?_, ?_, ?_⟩
  · exact mapSet_keys_nodup m _ nid hk
  · intro kv hkv
    rcases mem_of_mem_mapSet hkv with h1 | h1
    · exact Nat.lt_succ_of_lt (hbound kv h1)
    · rw [h1]
      exact Nat.lt_succ_self nid
  · intro iv hiv
    rcases List.mem_append.mp hiv with h1 | h1
    · exact Nat.lt_succ_of_lt (hibound iv h1)
    · simp at h1
      rw [h1]
      exact Nat.lt_succ_self nid
  · rw [List.map_append]
    refine List.Nodup.append hidnodup (by simp) ?_
    intro a ha hb
    simp at hb
    subst hb
    obtain ⟨iv, hiv, hid⟩ := List.mem_map.mp ha
    have := hibound iv hiv
    omega
  · intro iv hiv
    rcases List.mem_append.mp hiv with h1 | h1
    · rw [mapGet_mapSet_ne m _ nid iv.key (hnokey iv h1)]
      exact hbind iv h1
    · simp at h1
      rw [h1]
      exact mapGet_mapSet_self m _ nid

/-- C8: For every (session, scenario) timer key, at most one countdown
timer exists at any instant: starting a timer for a key that already has a
running timer cancels the old interval before registering the new one
(the old handle is no longer live afterwards), the key is bound to the
fresh handle, well-formedness is preserved, and no key ever has two live
countdowns. -/
theorem startTimer_exclusive (st : TimerSys) (sessionId scenarioId : String)
    (duration now : Nat) (hwf : st.WF) :
    TimerSys.WF (startTimer st sessionId scenarioId duration now).1 ∧
    mapGet (startTimer st sessionId scenarioId duration now).1.sessionTimers
      (timerKey sessionId scenarioId) = some st.nextIntervalId ∧
    (∀ t, mapGet st.sessionTimers (timerKey sessionId scenarioId) = some t →
      ∀ iv ∈ (startTimer st sessionId scenarioId duration now).1.intervals,
        iv.id ≠ t) ∧
    (∀ k, ((startTimer st sessionId scenarioId duration now).1.intervals.filter
      (fun iv => iv.key == k)).length ≤ 1) := by
  obtain ⟨hk, hbound, hibound, hidnodup, hbind⟩ := hwf
  cases hget : mapGet st.sessionTimers (timerKey sessionId scenarioId) with
  | none =>
    have hst' : (startTimer st sessionId scenarioId duration now).1 =
        { sessionTimers := mapSet st.sessionTimers
            (timerKey sessionId scenarioId) st.nextIntervalId,
          intervals := st.intervals ++
            [{ id := st.nextIntervalId, key := timerKey sessionId scenarioId,
               sessionId := sessionId, scenarioId := scenarioId,
               secondsRemaining := (duration : Int) }],
          nextIntervalId := st.nextIntervalId + 1 } := by
      simp [startTimer, hget]
    have hnokey : ∀ iv ∈ st.intervals, iv.key ≠ timerKey sessionId scenarioId := by
      intro iv hiv hkeyeq
      have hb := hbind iv hiv
      rw [hkeyeq, hget] at hb
      exact Option.noConfusion hb
    have hwf' := startTimer_core_wf st.sessionTimers st.intervals st.nextIntervalId
      sessionId scenarioId duration hk hbound hibound hidnodup hbind hnokey
    refine ⟨?_, ?_, ?_, ?_⟩
    · rw [hst']
      exact hwf'
    · rw [hst']
      exact mapGet_mapSet_self _ _ _
    · intro t ht
      exact Option.noConfusion ht
    · intro k2
      rw [hst']
      exact wf_at_most_one_per_key _ hwf' k2
  | some t0 =>
    have hst' : (startTimer st sessionId scenarioId duration now).1 =
        { sessionTimers := mapSet st.sessionTimers
            (timerKey sessionId scenarioId) st.nextIntervalId,
          intervals := (st.intervals.filter (fun iv => !(iv.id == t0))) ++
            [{ id := st.nextIntervalId, key := timerKey sessionId scenarioId,
               sessionId := sessionId, scenarioId := scenarioId,
               secondsRemaining := (duration : Int) }],
          nextIntervalId := st.nextIntervalId + 1 } := by
      simp [startTimer, hget, clearIntervalTimer]
    have hnokey : ∀ iv ∈ st.intervals.filter (fun iv => !(iv.id == t0)),
        iv.key ≠ timerKey sessionId scenarioId := by
      intro iv hiv hkeyeq
      have hb := hbind iv (List.mem_of_mem_filter hiv)
      rw [hkeyeq, hget] at hb
      have hid : iv.id = t0 := (Option.some.inj hb).symm
      have hkeep := List.of_mem_filter hiv
      simp [hid] at hkeep
    have hwf' := startTimer_core_wf st.sessionTimers
      (st.intervals.filter (fun iv => !(iv.id == t0))) st.nextIntervalId
      sessionId scenarioId duration hk hbound
      (fun iv hiv => hibound iv (List.mem_of_mem_filter hiv))
      (List.Nodup.sublist (List.Sublist.map _ (List.filter_sublist _)) hidnodup)
      (fun iv hiv => hbind iv (List.mem_of_mem_filter hiv)) hnokey
    have ht0lt : t0 < st.nextIntervalId := hbound _ (mapGet_mem hget)
    refine ⟨?_, ?_, ?_, ?_⟩
    · rw [hst']
      exact hwf'
    · rw [hst']
      exact mapGet_mapSet_self _ _ _
    · intro t ht iv hiv
      have ht0 : t = t0 := Option.some.inj ht.symm
      subst ht0
      rw [hst'] at hiv
      rcases List.mem_append.mp hiv with h1 | h1
      · have hkeep := List.of_mem_filter h1
        simpa using hkeep
      · simp at h1
        rw [h1]
        show st.nextIntervalId ≠ t
        omega
    · intro k2
      rw [hst']
      exact wf_at_most_one_per_key _ hwf' k2

/-- A state with one live timer for key 1-1, used by the C8 witness. -/
def stC8 : TimerSys :=
  { sessionTimers := [("1-1", 0)],
    intervals := [{ id := 0, key := "1-1", sessionId := "1", scenarioId := "1",
                    secondsRemaining := 5 }],
    nextIntervalId := 1 }

/-- Witness: restarting the timer of an occupied key at a concrete state
rebinds the key to the fresh handle. -/
theorem startTimer_exclusive_witness :
    TimerSys.WF stC8 ∧
    mapGet (startTimer stC8 "1" "1" 30 0).1.sessionTimers (timerKey "1" "1") =
      some stC8.nextIntervalId :=
  ⟨by unfold TimerSys.WF; decide,
   (startTimer_exclusive stC8 "1" "1" 30 0 (by unfold TimerSys.WF; decide)).2.1⟩

/-- A store with one active session (id 1) and one active participant
(id 2) who has not voted, for the timer-expiry counterexample. -/
def dbC2 : DB :=
  { DB.empty with
    sessions := [{ id := 1, roomCode := "RRR333", status := .active,
                   config := { timerDuration := 30, maxParticipants := 10 },
                   endedAt := none }],
    participants := [{ id := 2, sessionId := 1, fingerprint := "fpB",
                       isActive := true, joinedAt := 0, leftAt := none }],
    nextId := 3 }

/-- C2 counterexample: run the countdown for (session 1, scenario 1) to
expiry.  The whole expiry emission is one best-effort volatile timer_tick
with seconds_remaining 0 — no separate results-ready broadcast exists in
the event vocabulary — and voting is not locked: a submitVote for that same
(session, scenario) issued after the expiry still succeeds and inserts a
vote row. -/
theorem timer_expiry_no_lock_cex :
    (intervalTick (startTimer TimerSys.empty "1" "1" 1 0).1 0).2 =
      [{ room := roomOf "1", volatileFlag := true,
         event := .timerTick "1" "1" 0 }] ∧
    mapGet (intervalTick (startTimer TimerSys.empty "1" "1" 1 0).1 0).1.sessionTimers
      (timerKey "1" "1") = none ∧
    (match submitVote dbC2 1 2 1 VoteType.pull none none 0 id id with
      | .ok (d, _) => d.votes.length == dbC2.votes.length + 1
      | .error _ => false) = true := by
  refine ⟨by decide, by decide, by decide⟩

/-- C2 amended: when a countdown expires (the tick that reaches
seconds_remaining 0), the expiry emission is the final timer_tick,
broadcast best-effort (volatile) to the room, and the timer is removed from
the registry; the server emits no separate results-ready broadcast and does
not lock voting — submitVote stays subject only to the duplicate check —
and a second delivery of the expiry callback has no additional effect (the
cleared interval fires nothing). -/
theorem timer_expiry_amended (st : TimerSys) (tid : Nat) (iv : Interval)
    (hfind : st.intervals.find? (fun j => j.id == tid) = some iv)
    (hsec : iv.secondsRemaining = 1) :
    (intervalTick st tid).2 =
      [{ room := roomOf iv.sessionId, volatileFlag := true,
         event := .timerTick iv.sessionId iv.scenarioId 0 }] ∧
    mapGet (intervalTick st tid).1.sessionTimers iv.key = none ∧
    intervalTick (intervalTick st tid).1 tid = ((intervalTick st tid).1, []) ∧
    (∀ (db : DB) (sid pid scid lat : Nat) (vt : VoteType),
      hasVoteFor db sid pid scid = false →
      (submitVote db sid pid scid vt none none lat id id).isOk = true) := by
  have hred : intervalTick st tid =
      ({ st with
          intervals := st.intervals.filter (fun j => !(j.id == tid)),
          sessionTimers := mapDelete st.sessionTimers iv.key },
        [{ room := roomOf iv.sessionId, volatileFlag := true,
           event := .timerTick iv.sessionId iv.scenarioId 0 }]) := by
    unfold intervalTick
    rw [hfind]
    simp [hsec, clearIntervalTimer]
  refine ⟨?_, ?_, ?_, ?_⟩
  · rw [hred]
  · rw [hred]
    exact mapGet_mapDelete_self _ _
  · rw [hred]
    unfold intervalTick
    have hnone : (st.intervals.filter (fun j => !(j.id == tid))).find?
        (fun j => j.id == tid) = none := by
      rw [List.find?_eq_none]
      intro j hj
      have := List.of_mem_filter hj
      simpa using this
    rw [hnone]
  · intro db sid pid scid lat vt hnv
    have hnil : db.votes.filter (fun v =>
        v.sessionId == sid && v.participantId == pid && v.scenarioId == scid) = [] := by
      rw [List.filter_eq_nil_iff]
      intro v hv hp
      have hany : hasVoteFor db sid pid scid = true :=
        List.any_eq_true.mpr ⟨v, hv, hp⟩
      rw [hnv] at hany
      exact Bool.noConfusion hany
    unfold submitVote
    rw [hnil]
    simp [Except.isOk, Except.toBool]

/-- A state holding the timer for key 1-1 at one remaining second, for the
C2 witness. -/
def stC2 : TimerSys :=
  { sessionTimers := [("1-1", 0)],
    intervals := [{ id := 0, key := "1-1", sessionId := "1", scenarioId := "1",
                    secondsRemaining := 1 }],
    nextIntervalId := 1 }

/-- The interval stC2 is about to expire. -/
def ivC2 : Interval :=
  { id := 0, key := "1-1", sessionId := "1", scenarioId := "1",
    secondsRemaining := 1 }

/-- Witness: the amended expiry behavior at a concrete state. -/
theorem timer_expiry_amended_witness :
    stC2.intervals.find? (fun j => j.id == 0) = some ivC2 ∧
    (intervalTick stC2 0).2 =
      [{ room := roomOf ivC2.sessionId, volatileFlag := true,
         event := .timerTick ivC2.sessionId ivC2.scenarioId 0 }] ∧
    mapGet (intervalTick stC2 0).1.sessionTimers ivC2.key = none ∧
    intervalTick (intervalTick stC2 0).1 0 = ((intervalTick stC2 0).1, []) :=
  ⟨by decide,
   (timer_expiry_amended stC2 0 ivC2 (by decide) (by decide)).1,
   (timer_expiry_amended stC2 0 ivC2 (by decide) (by decide)).2.1,
   (timer_expiry_amended stC2 0 ivC2 (by decide) (by decide)).2.2.1⟩

/-- `retryWithBackoff` (resilience.ts, lines 39 to 89), with the attempt
loop made explicit: `fn` gives the outcome of each numbered attempt,
`fuel` is the remaining attempt budget, and `last` the last error seen.
The backoff delays and jitter only schedule the attempts and cannot change
the returned value, so they are not part of the model.  The result carries
the number of attempts actually made. -/
def retryFrom {α : Type} (fn : Nat → Except String α) (p : String → Bool) :
    Nat → Nat → Option String → Except String α × Nat
  | attempt, 0, last => (.error (last.getD "undefined"), attempt)
  | attempt, fuel + 1, _ =>
    match fn attempt with
    | .ok v => (.ok v, attempt + 1)
    | .error e =>
      if p e then retryFrom fn p (attempt + 1) fuel (some e)
      else (.error e, attempt + 1)

/-- The entry point of retryWithBackoff: start at attempt 0 with the
configured bound (`maxRetries`, default 3) and classifier (`shouldRetry`). -/
def retryWithBackoff {α : Type} (fn : Nat → Except String α) (maxRetries : Nat)
    (p : String → Bool) : Except String α × Nat :=
  retryFrom fn p 0 maxRetries none

/-- Substring test used to model JS `String.includes`. -/
def containsSub (s sub : String) : Bool :=
  s.toList.tails.any (fun t => sub.toList.isPrefixOf t)

/-- JS `toLowerCase()` character by character (the compared messages are
ASCII). -/
def toLowerStr (s : String) : String := String.mk (s.toList.map Char.toLower)

/-- The transient-error classifier `ResilientDatabase.query` installs as
`shouldRetry` (resilience.ts, lines 175 to 182): the lower-cased message
must mention a connection problem, a timeout, or a DNS failure. -/
def dbShouldRetry (msg : String) : Bool :=
  containsSub (toLowerStr msg) "connection" ||
    containsSub (toLowerStr msg) "timeout" ||
    containsSub (toLowerStr msg) "econnrefused" ||
    containsSub (toLowerStr msg) "enotfound"

/-- The retry loop makes at most `fuel` further attempts. -/
theorem retryFrom_attempts_le {α : Type} (fn : Nat → Except String α)
    (p : String → Bool) :
    ∀ fuel attempt last, (retryFrom fn p attempt fuel last).2 ≤ attempt + fuel := by
  intro fuel
  induction fuel with
  | zero =>
    intro attempt last
    simp [retryFrom]
  | succ n ih =>
    intro attempt last
    simp only [retryFrom]
    cases hf : fn attempt with
    | ok v => simp
    | error e =>
      by_cases hp : p e = true
      · simp [hp]
        have := ih (attempt + 1) (some e)
        omega
      · simp [hp]

/-- A non-retryable first outcome is surfaced at once, after one attempt. -/
theorem retryFrom_stops_on_nonretryable {α : Type} (fn : Nat → Except String α)
    (p : String → Bool) (fuel attempt : Nat) (last : Option String) (e : String)
    (hfe : fn attempt = .error e) (hpe : p e = false) (hfuel : 0 < fuel) :
    retryFrom fn p attempt fuel last = (.error e, attempt + 1) := by
  cases fuel with
  | zero => omega
  | succ n => simp [retryFrom, hfe, hpe]

/-- Every attempt that was followed by another one failed with an error the
classifier accepted as retryable. -/
theorem retryFrom_retried_only_transient {α : Type} (fn : Nat → Except String α)
    (p : String → Bool) :
    ∀ fuel attempt last k, attempt ≤ k →
      k + 1 < (retryFrom fn p attempt fuel last).2 →
      ∃ e, fn k = .error e ∧ p e = true := by
  intro fuel
  induction fuel with
  | zero =>
    intro attempt last k hk hlt
    simp [retryFrom] at hlt
    omega
  | succ n ih =>
    intro attempt last k hk hlt
    simp only [retryFrom] at hlt
    cases hf : fn attempt with
    | ok v =>
      rw [hf] at hlt
      simp at hlt
      omega
    | error e =>
      rw [hf] at hlt
      by_cases hp : p e = true
      · simp [hp] at hlt
        rcases Nat.eq_or_lt_of_le hk with heq | hlt2
        · subst heq
          exact ⟨e, hf, hp⟩
        · exact ih (attempt + 1) (some e) k hlt2 hlt
      · simp [hp] at hlt
        omega

/-- C9: the retry wrapper attempts the operation at most the bounded
attempt count; retries happen only for errors the classifier marks
transient; a non-retryable first error (validation, duplicate vote) is
surfaced immediately after one attempt; and the database classifier
accepts exactly the connection/timeout/DNS messages, not validation or
uniqueness-violation errors. -/
theorem retryWithBackoff_policy {α : Type} (fn : Nat → Except String α)
    (maxRetries : Nat) (p : String → Bool) (h : 0 < maxRetries) :
    (retryWithBackoff fn maxRetries p).2 ≤ maxRetries ∧
    (∀ e, fn 0 = .error e → p e = false →
      retryWithBackoff fn maxRetries p = (.error e, 1)) ∧
    (∀ k, k + 1 < (retryWithBackoff fn maxRetries p).2 →
      ∃ e, fn k = .error e ∧ p e = true) ∧
    dbShouldRetry "Participant has already voted for this scenario" = false ∧
    dbShouldRetry "Invalid vote value" = false ∧
    dbShouldRetry "connect ECONNREFUSED 127.0.0.1:5432" = true ∧
    dbShouldRetry "Connection terminated due to connection timeout" = true ∧
    dbShouldRetry "getaddrinfo ENOTFOUND db.neon.tech" = true := by
  refine ⟨?_, ?_, ?_, by decide, by decide, by decide, by decide, by decide⟩
  · have := retryFrom_attempts_le fn p maxRetries 0 none
    simpa [retryWithBackoff] using this
  · intro e hfe hpe
    exact retryFrom_stops_on_nonretryable fn p maxRetries 0 none e hfe hpe h
  · intro k hk
    exact retryFrom_retried_only_transient fn p maxRetries 0 none k (Nat.zero_le k) hk

/-- An attempt trace failing once with a transient error and then
succeeding, for the C9 witness. -/
def fnC9 : Nat → Except String Nat
  | 0 => .error "connection refused"
  | _ => .ok 42

/-- An attempt trace failing with the duplicate-vote error. -/
def fnC9dup : Nat → Except String Nat :=
  fun _ => .error "Participant has already voted for this scenario"

/-- Witness: with the database classifier and the default bound of 3, a
duplicate-vote error is surfaced after exactly one attempt, the attempt
count never exceeds 3, and the classifier separates the concrete transient
and non-transient messages. -/
theorem retryWithBackoff_policy_witness :
    (retryWithBackoff fnC9 3 dbShouldRetry).2 ≤ 3 ∧
    retryWithBackoff fnC9dup 3 dbShouldRetry =
      (.error "Participant has already voted for this scenario", 1) ∧
    dbShouldRetry "Participant has already voted for this scenario" = false ∧
    dbShouldRetry "connect ECONNREFUSED 127.0.0.1:5432" = true :=
  ⟨(retryWithBackoff_policy fnC9 3 dbShouldRetry (by decide)).1,
   (retryWithBackoff_policy fnC9dup 3 dbShouldRetry (by decide)).2.1
     "Participant has already voted for this scenario" rfl (by decide),
   (retryWithBackoff_policy fnC9 3 dbShouldRetry (by decide)).2.2.2.1,
   (retryWithBackoff_policy fnC9 3 dbShouldRetry (by decide)).2.2.2.2.2.1⟩

/-- `RoomServiceEnhanced.getActiveParticipantCount`
(realtimeServiceSecure.ts, lines 861 to 882): the resilient count query,
whose catch branch returns 0 on any storage failure; `queryFails` models
the underlying query throwing.  No broadcast path in the repository calls
this function. -/
def getActiveParticipantCount (db : DB) (sessionId : Nat) (queryFails : Bool) : Nat :=
  if queryFails then 0 else activeCount db sessionId

/-- The legacy `RoomService.getActiveParticipantCount` (roomService.ts,
lines 363 to 375): the bare count query with no catch, so a storage
failure propagates to the caller as a thrown error. -/
def legacyGetActiveParticipantCount (db : DB) (sessionId : Nat)
    (queryFails : Bool) : Except String Nat :=
  if queryFails then .error "storage failure"
  else .ok (activeCount db sessionId)

/-- `RealtimeServiceSecure.handleParticipantJoined`
(realtimeServiceSecure.ts, lines 322 to 336): it awaits the legacy
`RoomService.getActiveParticipantCount`, and on success emits
participant_joined with that count; the surrounding catch logs any thrown
error and emits nothing. -/
def handleParticipantJoined (db : DB) (sessionId : Nat)
    (participantId roomCode : String) (queryFails : Bool) : List Broadcast :=
  match legacyGetActiveParticipantCount db sessionId queryFails with
  | .ok n =>
    [{ room := roomOf (toString sessionId), volatileFlag := false,
       event := .participantJoined participantId roomCode n }]
  | .error _ => []

/-- A store whose session 1 still has one active participant, for the C10
counterexample. -/
def dbC10 : DB :=
  { DB.empty with
    sessions := [{ id := 1, roomCode := "TTT444", status := .active,
                   config := { timerDuration := 30, maxParticipants := 10 },
                   endedAt := none }],
    participants := [{ id := 2, sessionId := 1, fingerprint := "fpC",
                       isActive := true, joinedAt := 0, leftAt := none }],
    nextId := 3 }

/-- C10 counterexample: at a concrete store whose session still has an
active participant, a failing count query makes the count call used by the
broadcast path propagate an error rather than return 0, and the handler
then emits no participant_joined broadcast at all — in particular none
reporting active_count 0. -/
theorem participantJoined_failure_no_broadcast_cex :
    0 < activeCount dbC10 1 ∧
    legacyGetActiveParticipantCount dbC10 1 true = .error "storage failure" ∧
    handleParticipantJoined dbC10 1 "p2" "TTT444" true = [] := by
  refine ⟨by decide, rfl, rfl⟩

/-- C10 amended: RoomServiceEnhanced.getActiveParticipantCount does return
0 instead of propagating when its storage query fails, but the
participant_joined broadcast path never calls it: the handler uses the
legacy RoomService.getActiveParticipantCount, which propagates the
failure, and the handler's own catch then suppresses the broadcast, so on
a failed count query no participant broadcast is emitted at all; on a
successful query the broadcast carries the true active count. -/
theorem participantCount_failure_behavior (db : DB) (sessionId : Nat)
    (participantId roomCode : String) :
    getActiveParticipantCount db sessionId true = 0 ∧
    legacyGetActiveParticipantCount db sessionId true = .error "storage failure" ∧
    handleParticipantJoined db sessionId participantId roomCode true = [] ∧
    handleParticipantJoined db sessionId participantId roomCode false =
      [{ room := roomOf (toString sessionId), volatileFlag := false,
         event := .participantJoined participantId roomCode
           (activeCount db sessionId) }] :=
  ⟨rfl, rfl, rfl, rfl⟩

end TrolleyGame

